import Mathlib

/-!
Verification development for the sdaf-gh-actions repository.

The Python sources are shallowly embedded: every external effect (Azure CLI
invocation, GitHub REST call, HTTP response, wall-clock sleep) is passed in as
an explicit oracle argument, and each embedded function returns, next to the
value the Python function returns, the trace of external calls it issued and
the messages it printed, so that control-flow claims about the orchestration
can be stated and proved.
-/

namespace SDAF

/-- Python dictionaries with string keys and string values, in insertion
order. Python dictionaries never hold duplicate keys; embedded operations
preserve that invariant but theorems state it explicitly where needed. -/
abbrev PyDict := List (String × String)

/-- Lookup `d[k]` (first entry with key `k`). -/
def getVal (d : PyDict) (k : String) : Option String :=
  (d.find? (fun p => p.1 == k)).map Prod.snd

/-- Assignment `d[k] = v`: replace the entry in place when the key exists,
append it otherwise (Python dictionary update semantics). -/
def setVal : PyDict → String → String → PyDict
  | [], k, v => [(k, v)]
  | p :: rest, k, v => if p.1 == k then (k, v) :: rest else p :: setVal rest k v

/-- Python `base.update(other)`: fold assignments of `other` over `base`. -/
def dictUpdate (base other : PyDict) : PyDict :=
  other.foldl (fun acc p => setVal acc p.1 p.2) base

/-- Key set of a dictionary is duplicate-free (holds for every real Python
dictionary). -/
def NodupKeys (d : PyDict) : Prop := (d.map Prod.fst).Nodup

/-- Python `value.isalnum()` restricted to the ASCII alphabet: nonempty and
every character a letter or a digit. -/
def pyIsAlnum (value : String) : Bool :=
  !value.isEmpty && value.toList.all Char.isAlphanum

/-- Embedding of `validate_environment_code` (`src/ui/validators.py`, lines 65-84). -/
def validate_environment_code (value : String) : Option String :=
  if value.isEmpty then some "Environment code cannot be empty"
  else if value.length > 5 then some "Environment code must be at most 5 characters"
  else if !pyIsAlnum value then some "Environment code should only contain letters and numbers"
  else none

/-- Embedding of `validate_vnet_name` (`src/ui/validators.py`, lines 87-106). -/
def validate_vnet_name (value : String) : Option String :=
  if value.isEmpty then some "VNet name cannot be empty"
  else if value.length > 7 then some "VNet name must be at most 7 characters"
  else if !pyIsAlnum value then some "VNet name should only contain letters and numbers"
  else none

/-- Outcome of the POST to the workflow-dispatches endpoint: either the
request raised, or a response with an HTTP status code and a body. -/
inductive HttpOutcome where
  | exc (msg : String)
  | resp (status : Nat) (text : String)
deriving DecidableEq

/-- Return value plus printed lines of a dispatch attempt. -/
structure DispatchResult where
  ok : Bool
  log : List String
deriving DecidableEq

/-- Embedding of `GitHubManager.trigger_workflow` (`src/core/github_manager.py`, lines
131-168): POST the dispatch request; only HTTP 204 is success; any other
status prints the status and the response body and fails; a raised request
exception fails. -/
def trigger_workflow (outcome : HttpOutcome) (workflow_id : String) : DispatchResult :=
  match outcome with
  | .resp status text =>
    if status = 204 then
      { ok := true, log := ["Workflow " ++ workflow_id ++ " triggered successfully"] }
    else
      { ok := false,
        log := ["Failed to trigger workflow " ++ workflow_id ++ ": " ++ toString status,
                text] }
  | .exc msg => { ok := false, log := ["Error triggering workflow: " ++ msg] }

/-- Python `name.startswith(pre)`, phrased over the character lists so that
concrete instances reduce in the kernel; extensionally this is
`String.startsWith`. -/
def pyStartsWith (name pre : String) : Bool :=
  pre.toList.isPrefixOf name.toList

/-- The while-loop of `WorkflowManager.wait_for_environment` (lines 93-113).
`listings n` is the list returned by the n-th `get_environments` call
(0-indexed); `pfx` is the environment name prefix. The loop state is the
number of listing calls made so far and the `elapsed` counter; each iteration
lists the environments, returns the first name starting with `pfx` if one
exists, and otherwise sleeps `check_interval` seconds and adds
`check_interval` to `elapsed`. The loop runs while `elapsed < timeout`, so for
`check_interval ≥ 1` it iterates at most `timeout` times and the `fuel`
argument supplied by `wait_for_environment` is never exhausted (the Python
loop does not terminate when `check_interval = 0` and no match appears).
Result: (matched name or `none` on timeout, listing calls made, final
`elapsed`). -/
def waitLoop (listings : Nat → List String) (pfx : String)
    (timeout check_interval : Nat) : Nat → Nat → Nat → Option String × Nat × Nat
  | 0, calls, elapsed => (none, calls, elapsed)
  | fuel + 1, calls, elapsed =>
    if elapsed < timeout then
      match (listings calls).filter (fun e => pyStartsWith e pfx) with
      | e :: _ => (some e, calls + 1, elapsed)
      | [] => waitLoop listings pfx timeout check_interval fuel (calls + 1)
          (elapsed + check_interval)
    else
      (none, calls, elapsed)

/-- Embedding of `WorkflowManager.wait_for_environment` (lines 70-113), with the source's
default `timeout=180` and `check_interval=10`. -/
def wait_for_environment (listings : Nat → List String) (pfx : String)
    (timeout : Nat := 180) (check_interval : Nat := 10) :
    Option String × Nat × Nat :=
  waitLoop listings pfx timeout check_interval (timeout + 1) 0 0

/-- Return value, issued `create_secret` API calls (in order), and printed
lines of one batch-publishing call. -/
structure PublishResult where
  ok : Bool
  attempted : List (String × String)
  log : List String
deriving DecidableEq

/-- The per-secret loop shared by `GitHubManager.add_repository_secrets` and
`GitHubManager.add_environment_secrets` (`src/core/github_manager.py`, lines
76-85 and 115-126): every key/value pair is attempted; a failing creation
prints an error and clears the success flag but the loop continues.
`createOk k` tells whether the remote accepts the creation of secret `k`;
`okMsg`/`errMsg` build the printed lines. -/
def publishLoop (createOk : String → Bool) (okMsg errMsg : String → String) :
    List (String × String) → PublishResult → PublishResult
  | [], acc => acc
  | kv :: rest, acc =>
    if createOk kv.1 then
      publishLoop createOk okMsg errMsg rest
        { ok := acc.ok, attempted := acc.attempted ++ [kv],
          log := acc.log ++ [okMsg kv.1] }
    else
      publishLoop createOk okMsg errMsg rest
        { ok := false, attempted := acc.attempted ++ [kv],
          log := acc.log ++ [errMsg kv.1] }

/-- Embedding of `GitHubManager.add_repository_secrets` (lines 58-88). `repoOk` is whether
`get_repository` resolved the repository. -/
def GHM_add_repository_secrets (repoOk : Bool) (createOk : String → Bool)
    (repo_full_name : String) (secrets : List (String × String)) : PublishResult :=
  if repoOk = false then
    { ok := false, attempted := [], log := [] }
  else
    publishLoop createOk
      (fun n => "Secret " ++ n ++ " added to " ++ repo_full_name)
      (fun n => "Error adding secret " ++ n)
      secrets
      { ok := true, attempted := [], log := [] }

/-- Embedding of `GitHubManager.add_environment_secrets` (lines 90-129). `repoOk` is
whether `get_repository` resolved the repository, `envOk` whether
`repo.get_environment` resolved the named environment; a failed environment
lookup returns `False` before any secret creation is attempted. Note this
variant sends every key/value pair, including empty values. -/
def GHM_add_environment_secrets (repoOk envOk : Bool) (createOk : String → Bool)
    (environment_name : String) (secrets : List (String × String)) : PublishResult :=
  if repoOk = false then
    { ok := false, attempted := [], log := [] }
  else if envOk = false then
    { ok := false, attempted := [],
      log := ["Error retrieving environment " ++ environment_name] }
  else
    publishLoop createOk
      (fun n => "Secret " ++ n ++ " added to environment " ++ environment_name)
      (fun n => "Error adding environment secret " ++ n)
      secrets
      { ok := true, attempted := [], log := [] }

/-- The standalone script variant `add_environment_secrets`
(`src/sdaf_github_actions.py`, lines 430-447): it resolves the environment,
then for each key/value pair it skips empty values with a printed skip
message, and otherwise attempts the creation, printing and continuing on
failure. It has no return value, so the embedding records only the trace:
issued API calls and printed lines. -/
def script_env_secrets_loop (createOk : String → Bool)
    (environment_name repo_full_name : String) :
    List (String × String) → List (String × String) × List String → List (String × String) × List String
  | [], acc => acc
  | (n, v) :: rest, acc =>
    if v = "" then
      script_env_secrets_loop createOk environment_name repo_full_name rest
        (acc.1, acc.2 ++ ["Skipping secret " ++ n ++ " because it has an empty value."])
    else if createOk n then
      script_env_secrets_loop createOk environment_name repo_full_name rest
        (acc.1 ++ [(n, v)],
         acc.2 ++ ["*** Secret " ++ n ++ " added to environment " ++
           environment_name ++ " in " ++ repo_full_name ++ ".***"])
    else
      script_env_secrets_loop createOk environment_name repo_full_name rest
        (acc.1 ++ [(n, v)],
         acc.2 ++ ["Error adding secret " ++ n, "Continuing with other secrets..."])

/-- Entry point of the script variant: applies the loop to the whole mapping
with empty traces. -/
def script_add_environment_secrets (createOk : String → Bool)
    (environment_name repo_full_name : String)
    (secrets : List (String × String)) : List (String × String) × List String :=
  script_env_secrets_loop createOk environment_name repo_full_name secrets ([], [])

/-- Service-principal data as consumed by the orchestrators: the fields of
the dictionary built by `AzureManager.create_service_principal`. -/
structure SpnData where
  appId : String
  password : String
  object_id : String
deriving DecidableEq

/-- Outcomes of the external step operations, one field per call the
orchestrators make. `spn_workflow` is the pair returned by
`AzureManager.create_service_principal_workflow`; `wait_result` is the value
returned by `WorkflowManager.wait_for_environment` (the Python code treats
both `None` and the empty string as failure via truthiness, so the embedding
compares against `""` after defaulting `none` to `""`). -/
structure StepOutcomes where
  github_app_setup : Bool
  validate_login : Bool
  login : Bool
  spn_workflow : Option SpnData × Bool
  create_environment : Bool
  wait_result : Option String
  environment_secrets : Bool
  federated_identity : Bool

/-- The `results` dictionary of `run_full_setup`, with its initial values
(lines 187-195 of `src/core/workflow_manager.py`). -/
structure SetupResults where
  github_app_setup : Bool := false
  azure_login : Bool := false
  spn_creation : Bool := false
  environment_creation : Bool := false
  environment_name : String := ""
  environment_secrets : Bool := false
  federated_identity : Bool := false
deriving DecidableEq

/-- Embedding of `WorkflowManager.run_full_setup` (`src/core/workflow_manager.py`, lines
177-278): run the steps in order, recording each outcome in `results` and
returning `(False, results)` as soon as a step fails; after the last step
compute the overall flag from all recorded results. -/
def run_full_setup (o : StepOutcomes) : Bool × SetupResults :=
  let results : SetupResults := { github_app_setup := o.github_app_setup }
  if results.github_app_setup = false then (false, results)
  else
    let azure_login := if o.validate_login then true else o.login
    let results := { results with azure_login := azure_login }
    if azure_login = false then (false, results)
    else
      match o.spn_workflow with
      | (none, _) => (false, { results with spn_creation := false })
      | (some spn_data, role_success) =>
        if role_success = false then (false, { results with spn_creation := false })
        else
          let results := { results with spn_creation := true,
                                        environment_creation := o.create_environment }
          if results.environment_creation = false then (false, results)
          else
            let environment_name := (o.wait_result).getD ""
            if environment_name = "" then (false, results)
            else
              let results := { results with environment_name := environment_name,
                                            environment_secrets := o.environment_secrets }
              if results.environment_secrets = false then (false, results)
              else
                let results := { results with federated_identity := o.federated_identity }
                (results.github_app_setup && results.azure_login &&
                   results.spn_creation && results.environment_creation &&
                   (results.environment_name != "") && results.environment_secrets &&
                   results.federated_identity,
                 results)

/-- Final user-visible state of the TUI setup screen
(`src/ui/tui.py`, `SetupScreen.run_setup`, lines 766-911): per-task status
strings as maintained by `update_task`, the `update_task_status` message log,
the message passed to `show_setup_error` (if any), and the environment name
passed to `show_setup_complete` (if the run finished). -/
structure TuiState where
  task_status : PyDict
  status_log : List String
  error_message : Option String
  complete : Option String
deriving DecidableEq

/-- Initial task statuses of `SetupScreen` (lines 726-735): every task
`pending`. -/
def initTuiState : TuiState :=
  { task_status :=
      [("setup_github_app", "pending"), ("login_azure", "pending"),
       ("create_service_principal", "pending"), ("create_environment", "pending"),
       ("setup_environment_secrets", "pending"),
       ("configure_federated_identity", "pending")],
    status_log := [], error_message := none, complete := none }

/-- Embedding of `update_task` (lines 913-940): record the new status string for a task. -/
def updateTask (s : TuiState) (task status : String) : TuiState :=
  { s with task_status := setVal s.task_status task status }

/-- Embedding of `update_task_status` (lines 942-948): append a line to the status log.
Interpolated values (such as the configured service-principal name) are
elided from the embedded message texts; the two messages claim C3 depends on
are verbatim. -/
def logStatus (s : TuiState) (message : String) : TuiState :=
  { s with status_log := s.status_log ++ [message] }

/-- Embedding of `SetupScreen.run_setup` (`src/ui/tui.py`, lines 766-911): the TUI
orchestrator. It runs the same external calls as `run_full_setup`, marks each
task `running` before and `success`/`error` after its call, and on error
shows the error message and returns. -/
def tui_run_setup (o : StepOutcomes) : TuiState :=
  let s := logStatus initTuiState "Initializing setup process"
  let s := logStatus (updateTask s "setup_github_app" "running") "Setting up GitHub App..."
  if o.github_app_setup = false then
    { logStatus (updateTask s "setup_github_app" "error") "GitHub App setup failed."
        with error_message := some "GitHub App setup failed" }
  else
    let s := logStatus (updateTask s "setup_github_app" "success")
      "GitHub App setup completed successfully."
    let s := logStatus (updateTask s "login_azure" "running") "Logging in to Azure..."
    let azure_login := if o.validate_login then true else o.login
    if azure_login = false then
      { logStatus (updateTask s "login_azure" "error") "Azure login failed."
          with error_message := some "Azure login failed" }
    else
      let s := logStatus (updateTask s "login_azure" "success") "Azure login successful."
      let s := logStatus (updateTask s "create_service_principal" "running")
        "Creating Azure Service Principal..."
      match o.spn_workflow with
      | (none, _) =>
        { logStatus (updateTask s "create_service_principal" "error")
            "Service Principal creation failed."
            with error_message := some "Service Principal creation failed" }
      | (some spn_data, role_success) =>
        if role_success = false then
          { logStatus (updateTask s "create_service_principal" "error")
              "Service Principal creation failed."
              with error_message := some "Service Principal creation failed" }
        else
          let s := logStatus (updateTask s "create_service_principal" "success")
            "Service Principal created successfully."
          let s := logStatus (updateTask s "create_environment" "running")
            "Creating GitHub environment..."
          if o.create_environment = false then
            { logStatus (updateTask s "create_environment" "error")
                "Failed to trigger environment creation workflow."
                with error_message := some "Failed to trigger environment creation workflow" }
          else
            let s := logStatus s "Waiting for environment to be created..."
            let environment_name := (o.wait_result).getD ""
            if environment_name = "" then
              { logStatus (updateTask s "create_environment" "error")
                  "Environment creation timed out."
                  with error_message := some "Environment creation timed out" }
            else
              let s := logStatus (updateTask s "create_environment" "success")
                "Environment created successfully."
              let s := logStatus (updateTask s "setup_environment_secrets" "running")
                "Setting up environment secrets..."
              if o.environment_secrets = false then
                { logStatus (updateTask s "setup_environment_secrets" "error")
                    "Environment secrets setup failed."
                    with error_message := some "Environment secrets setup failed" }
              else
                let s := logStatus (updateTask s "setup_environment_secrets" "success")
                  "Environment secrets setup completed successfully."
                let s := logStatus (updateTask s "configure_federated_identity" "running")
                  "Configuring federated identity..."
                if o.federated_identity = false then
                  { logStatus (updateTask s "configure_federated_identity" "error")
                      "Federated identity configuration failed."
                      with error_message := some "Federated identity configuration failed" }
                else
                  let s := logStatus (updateTask s "configure_federated_identity" "success")
                    "Federated identity configured successfully."
                  { logStatus s "Setup completed successfully!"
                      with complete := some environment_name }

/-- The part of the Azure subscription state this step reads and writes: the
number of `User Access Administrator` role assignments the principal holds at
subscription scope. The `role assignment list` query, when it succeeds and
parses, returns exactly this set; a successful `role assignment create` adds
one. -/
structure AzureRoleState where
  uaa_assignments : Nat
deriving DecidableEq

/-- Result of one execution of the existing-service-principal branch: the
returned value (`None` on failure of the list query, the `spn_data`
dictionary otherwise), the number of `role assignment create` calls issued,
and the Azure state afterwards. -/
structure RoleStepOutcome where
  spn : Option SpnData
  create_calls : Nat
  state : AzureRoleState
deriving DecidableEq

/-- The existing-service-principal branch of `create_azure_service_principal`
(lines 647-715). It first runs the `role assignment list` pre-check
(`check_args`, lines 665-677); a non-zero exit aborts the step with `None`.
If the JSON output does not parse, the step prints and still returns
`spn_data` without assigning (lines 711-715). If the parsed list is empty,
one `role assignment create` call is issued (lines 688-707); its failure is
printed but `spn_data` is still returned. If the list is nonempty, no create
call is issued. The preceding `diagnose_service_principal_issues` call only
performs read queries and never aborts the step, so it is not modelled. -/
def existing_spn_role_step (checkCmdOk parseOk createCmdOk : Bool)
    (spn_data : SpnData) (st : AzureRoleState) : RoleStepOutcome :=
  if checkCmdOk = false then
    { spn := none, create_calls := 0, state := st }
  else if parseOk = false then
    { spn := some spn_data, create_calls := 0, state := st }
  else if st.uaa_assignments = 0 then
    if createCmdOk then
      { spn := some spn_data, create_calls := 1,
        state := { uaa_assignments := st.uaa_assignments + 1 } }
    else
      { spn := some spn_data, create_calls := 1, state := st }
  else
    { spn := some spn_data, create_calls := 0, state := st }

/-- The fixed list of five roles assigned to the managed identity
(lines 561-567). -/
def uai_roles : List String :=
  ["Contributor", "Role Based Access Control Administrator",
   "Storage Blob Data Owner", "Key Vault Administrator",
   "App Configuration Data Owner"]

/-- The JSON object parsed from `az identity create` output (line 597). -/
structure UaiIdentity where
  id : String
  principalId : String
  clientId : String
deriving DecidableEq

/-- The dictionary returned on success (lines 628-636). -/
structure UaiRecord where
  name : String
  resourceGroup : String
  subscriptionId : String
  identityId : String
  principalId : String
  clientId : String
  roleAssignments : List (String × String)
deriving DecidableEq

/-- Outcomes of the external calls `create_user_assigned_identity` makes:
the three prechecks, the `az identity create` exit status, the parse of its
JSON output (`none` models a raised `JSONDecodeError`, caught by the outer
handler which returns `None`), and the per-role `az role assignment create`
exit status and stdout. -/
structure UaiOracle where
  login_ok : Bool
  subscription_ok : Bool
  resource_group_ok : Bool
  identity_create_ok : Bool
  identity_json : Option UaiIdentity
  role_assign_ok : String → Bool
  role_assign_id : String → String

/-- The role-assignment for-loop (lines 604-625): each role in `roles` gets
exactly one `role assignment create` call; successes are collected into
`role_assignments`, failures only print a warning. Returns the collected
assignments and the role names attempted, in order. -/
def uaiAssignLoop (roleOk : String → Bool) (roleId : String → String) :
    List String → List (String × String) × List String
  | [] => ([], [])
  | r :: rest =>
    let tailRes := uaiAssignLoop roleOk roleId rest
    ((if roleOk r then [(r, roleId r)] else []) ++ tailRes.1, r :: tailRes.2)

/-- Embedding of `create_user_assigned_identity` (lines 545-640): verify login, set the
subscription, verify the resource group, create the identity, parse its JSON
output, then best-effort assign the five roles and return the identity
record. Result: the returned value and the list of role-assignment create
calls attempted. -/
def create_user_assigned_identity (o : UaiOracle)
    (identity_name resource_group subscription_id : String) :
    Option UaiRecord × List String :=
  if o.login_ok = false then (none, [])
  else if o.subscription_ok = false then (none, [])
  else if o.resource_group_ok = false then (none, [])
  else if o.identity_create_ok = false then (none, [])
  else
    match o.identity_json with
    | none => (none, [])
    | some identity =>
      let assigns := uaiAssignLoop o.role_assign_ok o.role_assign_id uai_roles
      (some { name := identity_name, resourceGroup := resource_group,
              subscriptionId := subscription_id, identityId := identity.id,
              principalId := identity.principalId, clientId := identity.clientId,
              roleAssignments := assigns.1 },
       assigns.2)

/-- The mutable Python objects relevant to `ConfigManager`: a heap of
dictionary objects addressed by index, plus the log of dictionary contents
written to the two JSON files. `ConfigManager` methods that copy create a
fresh heap cell; mutating one cell never changes another. -/
structure PyState where
  cells : List PyDict
  file_writes : List (String × PyDict)
deriving DecidableEq

/-- The manager holds references (addresses) to its `config` and
`credentials` dictionaries. -/
structure ConfigManagerRef where
  config_addr : Nat
  credentials_addr : Nat
deriving DecidableEq

/-- Read the dictionary object at an address. -/
def heapGet (s : PyState) (a : Nat) : PyDict := s.cells.getD a []

/-- Mutate the dictionary object at an address in place. -/
def heapSet (s : PyState) (a : Nat) (d : PyDict) : PyState :=
  { s with cells := s.cells.set a d }

/-- Allocate a fresh dictionary object; returns its address. -/
def heapAlloc (s : PyState) (d : PyDict) : Nat × PyState :=
  (s.cells.length, { s with cells := s.cells ++ [d] })

/-- Embedding of `ConfigManager.get_config` (lines 122-124): `return self.config.copy()` —
allocate a fresh dictionary with the same entries. -/
def CM_get_config (m : ConfigManagerRef) (s : PyState) : Nat × PyState :=
  heapAlloc s (heapGet s m.config_addr)

/-- Embedding of `ConfigManager.get_credentials` (lines 126-128). -/
def CM_get_credentials (m : ConfigManagerRef) (s : PyState) : Nat × PyState :=
  heapAlloc s (heapGet s m.credentials_addr)

/-- Embedding of `ConfigManager.get_combined_data` (lines 130-134): copy the config, update
the copy with the credentials, return the copy. -/
def CM_get_combined_data (m : ConfigManagerRef) (s : PyState) : Nat × PyState :=
  heapAlloc s (dictUpdate (heapGet s m.config_addr) (heapGet s m.credentials_addr))

/-- Step outcomes exhibiting the C1 counterexample: every step up to and
including the environment wait succeeds, and the environment-secrets step
fails. -/
def c1Outcomes : StepOutcomes :=
  { github_app_setup := true, validate_login := true, login := true,
    spn_workflow := (some ⟨"app-id", "pw", "obj-id"⟩, true),
    create_environment := true, wait_result := some "MGMT-abc",
    environment_secrets := false, federated_identity := true }

/-- A concrete two-cell state for the C10 witness: the config object at
address 0, the credentials object at address 1, sharing the key `"k"`. -/
def c10State : PyState :=
  { cells := [[("k", "from-config"), ("only", "cfg")], [("k", "from-credentials")]],
    file_writes := [] }

/-! ## Supporting lemmas and claim theorems -/

theorem getVal_nil (k : String) : getVal [] k = none := rfl

theorem getVal_cons (p : String × String) (d : PyDict) (k : String) :
    getVal (p :: d) k = if p.1 = k then some p.2 else getVal d k := by
  by_cases hp : p.1 = k
  · have hb : (p.1 == k) = true := by simp [hp]
    simp [getVal, List.find?, hb, hp]
  · have hb : (p.1 == k) = false := by simp [hp]
    simp [getVal, List.find?, hb, hp]

theorem getVal_setVal_self (d : PyDict) (k v : String) :
    getVal (setVal d k v) k = some v := by
  induction d with
  | nil => simp [setVal, getVal_cons]
  | cons p rest ih =>
    by_cases hp : p.1 = k
    · simp [setVal, hp, getVal_cons]
    · simp [setVal, hp, getVal_cons, ih]

theorem getVal_setVal_ne (d : PyDict) (k v k' : String) (h : k' ≠ k) :
    getVal (setVal d k v) k' = getVal d k' := by
  induction d with
  | nil => simp [setVal, getVal_cons, getVal_nil, Ne.symm h]
  | cons p rest ih =>
    by_cases hp : p.1 = k
    · simp [setVal, hp, getVal_cons, Ne.symm h]
    · simp [setVal, hp, getVal_cons, ih]

theorem getVal_eq_none_of_not_mem (d : PyDict) (k : String)
    (h : k ∉ d.map Prod.fst) : getVal d k = none := by
  induction d with
  | nil => rfl
  | cons p rest ih =>
    simp only [List.map_cons, List.mem_cons, not_or] at h
    rw [getVal_cons, if_neg (fun hk => h.1 hk.symm)]
    exact ih h.2

theorem dictUpdate_cons (base : PyDict) (p : String × String) (rest : PyDict) :
    dictUpdate base (p :: rest) = dictUpdate (setVal base p.1 p.2) rest := rfl

/-- Lookup in `base.update(other)` falls through to `base` for keys absent
from `other`. -/
theorem getVal_dictUpdate_of_none (other : PyDict) (k : String) :
    getVal other k = none →
    ∀ base, getVal (dictUpdate base other) k = getVal base k := by
  induction other with
  | nil => intro _ base; rfl
  | cons p rest ih =>
    intro h base
    rw [getVal_cons] at h
    by_cases hp : p.1 = k
    · rw [if_pos hp] at h; exact absurd h (by simp)
    · rw [if_neg hp] at h
      rw [dictUpdate_cons, ih h, getVal_setVal_ne base p.1 p.2 k (fun hk => hp hk.symm)]

/-- Lookup in `base.update(other)`: an entry of `other` wins over any entry of
`base` with the same key (`other` duplicate-free, as Python guarantees). -/
theorem getVal_dictUpdate_of_some (other : PyDict) (k v : String) :
    NodupKeys other → getVal other k = some v →
    ∀ base, getVal (dictUpdate base other) k = some v := by
  induction other with
  | nil => intro _ h; rw [getVal_nil] at h; exact absurd h (by simp)
  | cons p rest ih =>
    intro hnd h base
    have hnd' : NodupKeys rest := (List.nodup_cons.mp hnd).2
    rw [getVal_cons] at h
    by_cases hp : p.1 = k
    · rw [if_pos hp] at h
      injection h with hv
      have hrest : getVal rest k = none := by
        refine getVal_eq_none_of_not_mem rest k fun hk => ?_
        exact (List.nodup_cons.mp hnd).1 (hp ▸ hk)
      rw [dictUpdate_cons, getVal_dictUpdate_of_none rest k hrest]
      rw [show setVal base p.1 p.2 = setVal base k p.2 from hp ▸ rfl]
      rw [getVal_setVal_self, hv]
    · rw [if_neg hp] at h
      rw [dictUpdate_cons]
      exact ih hnd' h (setVal base p.1 p.2)

theorem waitLoop_some (listings : Nat → List String) (pfx : String)
    (timeout check_interval : Nat) :
    ∀ fuel calls elapsed e c el,
      waitLoop listings pfx timeout check_interval fuel calls elapsed =
        (some e, c, el) →
      ((listings (c - 1)).filter (fun s => pyStartsWith s pfx)).head? = some e := by
  intro fuel
  induction fuel with
  | zero => intro calls elapsed e c el h; exact absurd h (by simp [waitLoop])
  | succ n ih =>
    intro calls elapsed e c el h
    rw [waitLoop] at h
    by_cases ht : elapsed < timeout
    · rw [if_pos ht] at h
      rcases hf : (listings calls).filter (fun s => pyStartsWith s pfx) with _ | ⟨x, xs⟩
      · rw [hf] at h
        exact ih (calls + 1) (elapsed + check_interval) e c el h
      · rw [hf] at h
        injection h with h1 h2
        injection h2 with h2 h3
        injection h1 with h1
        subst h1; subst h2
        simp [hf]
    · rw [if_neg ht] at h
      exact absurd h (by simp)

theorem waitLoop_step (listings : Nat → List String) (pfx : String)
    (timeout check_interval fuel calls elapsed : Nat)
    (hlt : elapsed < timeout)
    (hf : (listings calls).filter (fun s => pyStartsWith s pfx) = []) :
    waitLoop listings pfx timeout check_interval (fuel + 1) calls elapsed =
      waitLoop listings pfx timeout check_interval fuel (calls + 1)
        (elapsed + check_interval) := by
  rw [waitLoop, if_pos hlt, hf]

theorem waitLoop_stop (listings : Nat → List String) (pfx : String)
    (timeout check_interval fuel calls elapsed : Nat)
    (h : ¬elapsed < timeout) :
    waitLoop listings pfx timeout check_interval (fuel + 1) calls elapsed =
      (none, calls, elapsed) := by
  rw [waitLoop, if_neg h]

theorem publishLoop_spec (createOk : String → Bool) (okMsg errMsg : String → String) :
    ∀ (secrets : List (String × String)) (acc : PublishResult),
      (publishLoop createOk okMsg errMsg secrets acc).attempted =
        acc.attempted ++ secrets ∧
      (publishLoop createOk okMsg errMsg secrets acc).ok =
        (acc.ok && secrets.all (fun kv => createOk kv.1)) := by
  intro secrets
  induction secrets with
  | nil => intro acc; simp [publishLoop]
  | cons kv rest ih =>
    intro acc
    by_cases hc : createOk kv.1 = true
    · have h := ih { ok := acc.ok, attempted := acc.attempted ++ [kv],
                     log := acc.log ++ [okMsg kv.1] }
      refine ⟨?_, ?_⟩
      · simp only [publishLoop]
        rw [if_pos hc, h.1]
        simp
      · simp only [publishLoop]
        rw [if_pos hc, h.2]
        simp [hc]
    · have h := ih { ok := false, attempted := acc.attempted ++ [kv],
                     log := acc.log ++ [errMsg kv.1] }
      refine ⟨?_, ?_⟩
      · simp only [publishLoop]
        rw [if_neg hc, h.1]
        simp
      · simp only [publishLoop]
        rw [if_neg hc, h.2]
        simp [hc]

theorem script_env_secrets_loop_log_mono (createOk : String → Bool) (en rn : String) :
    ∀ (secrets : List (String × String)) (acc : List (String × String) × List String)
      (m : String), m ∈ acc.2 →
      m ∈ (script_env_secrets_loop createOk en rn secrets acc).2 := by
  intro secrets
  induction secrets with
  | nil => intro acc m hm; simpa [script_env_secrets_loop] using hm
  | cons kv rest ih =>
    intro acc m hm
    rcases kv with ⟨n, v⟩
    by_cases hv : v = ""
    · subst hv
      simp only [script_env_secrets_loop, if_pos rfl]
      exact ih _ m (by simp [hm])
    · by_cases hc : createOk n
      · simp only [script_env_secrets_loop, if_neg hv, hc, if_true]
        exact ih _ m (by simp [hm])
      · simp only [script_env_secrets_loop, if_neg hv, hc, if_false]
        exact ih _ m (by simp [hm])

theorem script_env_secrets_loop_spec (createOk : String → Bool) (en rn : String) :
    ∀ (secrets : List (String × String)) (acc : List (String × String) × List String),
      (script_env_secrets_loop createOk en rn secrets acc).1 =
        acc.1 ++ secrets.filter (fun kv => kv.2 != "") ∧
      ∀ n, (n, "") ∈ secrets →
        ("Skipping secret " ++ n ++ " because it has an empty value.") ∈
          (script_env_secrets_loop createOk en rn secrets acc).2 := by
  intro secrets
  induction secrets with
  | nil => intro acc; simp [script_env_secrets_loop]
  | cons kv rest ih =>
    intro acc
    rcases kv with ⟨n, v⟩
    by_cases hv : v = ""
    · subst hv
      refine ⟨?_, ?_⟩
      · simp only [script_env_secrets_loop]
        rw [if_pos (by trivial), (ih _).1]
        simp
      · intro m hm
        simp only [List.mem_cons, Prod.mk.injEq] at hm
        rcases hm with ⟨hm, _⟩ | hm
        · subst hm
          simp only [script_env_secrets_loop]
          rw [if_pos (by trivial)]
          exact script_env_secrets_loop_log_mono createOk en rn rest _ _ (by simp)
        · simp only [script_env_secrets_loop]
          rw [if_pos (by trivial)]
          exact (ih _).2 m hm
    · by_cases hc : createOk n = true
      · refine ⟨?_, ?_⟩
        · simp only [script_env_secrets_loop]
          rw [if_neg hv, if_pos hc, (ih _).1]
          simp [hv]
        · intro m hm
          simp only [List.mem_cons, Prod.mk.injEq] at hm
          rcases hm with ⟨_, hm⟩ | hm
          · exact absurd hm.symm hv
          · simp only [script_env_secrets_loop]
            rw [if_neg hv, if_pos hc]
            exact (ih _).2 m hm
      · refine ⟨?_, ?_⟩
        · simp only [script_env_secrets_loop]
          rw [if_neg hv, if_neg hc, (ih _).1]
          simp [hv]
        · intro m hm
          simp only [List.mem_cons, Prod.mk.injEq] at hm
          rcases hm with ⟨_, hm⟩ | hm
          · exact absurd hm.symm hv
          · simp only [script_env_secrets_loop]
            rw [if_neg hv, if_neg hc]
            exact (ih _).2 m hm

theorem uaiAssignLoop_spec (roleOk : String → Bool) (roleId : String → String) :
    ∀ roles : List String,
      uaiAssignLoop roleOk roleId roles =
        ((roles.filter roleOk).map (fun r => (r, roleId r)), roles) := by
  intro roles
  induction roles with
  | nil => rfl
  | cons r rest ih =>
    by_cases hr : roleOk r = true
    · simp [uaiAssignLoop, ih, hr, List.filter]
    · simp only [Bool.not_eq_true] at hr
      simp [uaiAssignLoop, ih, hr, List.filter]

theorem heapGet_alloc_new (s : PyState) (d : PyDict) :
    heapGet (heapAlloc s d).2 (heapAlloc s d).1 = d := by
  simp [heapGet, heapAlloc, List.getD]

theorem heapGet_alloc_old (s : PyState) (d : PyDict) (a : Nat)
    (h : a < s.cells.length) :
    heapGet (heapAlloc s d).2 a = heapGet s a := by
  simp [heapGet, heapAlloc, List.getD, List.getElem?_append_left h]

theorem heapGet_set_ne (s : PyState) (a b : Nat) (d : PyDict) (h : a ≠ b) :
    heapGet (heapSet s a d) b = heapGet s b := by
  simp [heapGet, heapSet, List.getD, List.getElem?_set_ne h]

theorem heapGet_set_alloc (s : PyState) (c d : PyDict) (a : Nat)
    (h : a < s.cells.length) :
    heapGet (heapSet (heapAlloc s c).2 (heapAlloc s c).1 d) a = heapGet s a := by
  have hne : (heapAlloc s c).1 ≠ a := (Nat.ne_of_lt h).symm
  rw [heapGet_set_ne _ _ _ _ hne]
  exact heapGet_alloc_old s c a h

/-- Claim C6, counterexample: the validators do not accept every value within
the length cap. The length-4 value "ab-c" and the length-7 value "ab-cd-e"
are within the caps (5 and 7) yet both are rejected, because the validators
also require nonempty alphanumeric input. -/
theorem C6_length_only_counterexample :
    ("ab-c".length ≤ 5 ∧ validate_environment_code "ab-c" ≠ none) ∧
    ("ab-cd-e".length ≤ 7 ∧ validate_vnet_name "ab-cd-e" ≠ none) := by
  decide

/-- Claim C6 (amended): `validate_environment_code` accepts a value exactly
when it is nonempty, alphanumeric, and of length at most 5, and
`validate_vnet_name` accepts exactly when the value is nonempty,
alphanumeric, and of length at most 7; in particular every value exceeding
the cap is rejected. -/
theorem C6_validator_characterization (value : String) :
    (validate_environment_code value = none ↔
       (value.isEmpty = false ∧ pyIsAlnum value = true ∧ value.length ≤ 5)) ∧
    (validate_vnet_name value = none ↔
       (value.isEmpty = false ∧ pyIsAlnum value = true ∧ value.length ≤ 7)) := by
  constructor
  · unfold validate_environment_code
    split_ifs with h1 h2 h3 <;> simp_all <;> omega
  · unfold validate_vnet_name
    split_ifs with h1 h2 h3 <;> simp_all <;> omega

/-- Claim C9: `trigger_workflow` returns `True` exactly when the POST yields
HTTP 204; any other status returns `False` with the response body among the
printed diagnostics, and a request exception returns `False`. -/
theorem C9_trigger_workflow_status (outcome : HttpOutcome) (workflow_id : String) :
    ((trigger_workflow outcome workflow_id).ok = true ↔
       ∃ t, outcome = .resp 204 t) ∧
    (∀ status text, outcome = .resp status text → status ≠ 204 →
       (trigger_workflow outcome workflow_id).ok = false ∧
       text ∈ (trigger_workflow outcome workflow_id).log) ∧
    (∀ msg, outcome = .exc msg → (trigger_workflow outcome workflow_id).ok = false) := by
  rcases outcome with msg | ⟨status, text⟩
  · refine ⟨by simp [trigger_workflow], ?_, ?_⟩
    · intro s t h _
      exact absurd h (by simp)
    · intro m _
      simp [trigger_workflow]
  · by_cases h : status = 204
    · subst h
      refine ⟨by simp [trigger_workflow], ?_, ?_⟩
      · intro s t he hne
        injection he with h1 _
        exact absurd h1.symm hne
      · intro m hm
        exact absurd hm (by simp)
    · refine ⟨by simp [trigger_workflow, h], ?_, ?_⟩
      · intro s t he hne
        injection he with h1 h2
        subst h1
        subst h2
        simp [trigger_workflow, h]
      · intro m hm
        exact absurd hm (by simp)

/-- Witness for C9 at a concrete failing response. -/
theorem C9_trigger_workflow_status_witness :
    (trigger_workflow (.resp 404 "not found") "create-environment.yaml").ok = false ∧
    "not found" ∈ (trigger_workflow (.resp 404 "not found") "create-environment.yaml").log :=
  (C9_trigger_workflow_status (.resp 404 "not found") "create-environment.yaml").2.1
    404 "not found" rfl (by decide)

/-- Claim C2: the wait loop returns the first listed name that starts with
the requested prefix (first conjunct: a successful wait returns the head of
the prefix-filtered listing of its final poll), and when no listing ever
matches, `timeout=30, check_interval=10` performs exactly 3 listing calls and
returns `none` with the cumulative elapsed counter equal to 30 (hence at
least 30 seconds slept). -/
theorem C2_wait_polling (listings : Nat → List String) (pfx : String)
    (timeout check_interval : Nat) :
    (∀ e c el,
       wait_for_environment listings pfx timeout check_interval = (some e, c, el) →
       ((listings (c - 1)).filter (fun s => pyStartsWith s pfx)).head? = some e) ∧
    ((∀ k e, e ∈ listings k → pyStartsWith e pfx = false) →
       wait_for_environment listings pfx 30 10 = (none, 3, 30)) := by
  constructor
  · intro e c el h
    exact waitLoop_some listings pfx timeout check_interval (timeout + 1) 0 0 e c el h
  · intro h
    have hf : ∀ k, (listings k).filter (fun s => pyStartsWith s pfx) = [] := by
      intro k
      refine List.filter_eq_nil_iff.mpr fun a ha => ?_
      simp [h k a ha]
    show waitLoop listings pfx 30 10 (30 + 1) 0 0 = (none, 3, 30)
    rw [waitLoop_step listings pfx 30 10 30 0 0 (by norm_num) (hf 0)]
    show waitLoop listings pfx 30 10 (29 + 1) 1 10 = (none, 3, 30)
    rw [waitLoop_step listings pfx 30 10 29 1 10 (by norm_num) (hf 1)]
    show waitLoop listings pfx 30 10 (28 + 1) 2 20 = (none, 3, 30)
    rw [waitLoop_step listings pfx 30 10 28 2 20 (by norm_num) (hf 2)]
    show waitLoop listings pfx 30 10 (27 + 1) 3 30 = (none, 3, 30)
    exact waitLoop_stop listings pfx 30 10 27 3 30 (by norm_num)

/-- Witness for C2: a listing that never matches the prefix makes the
30-second wait time out after exactly 3 polls. -/
theorem C2_wait_polling_witness :
    wait_for_environment (fun _ => ["other-env"]) "MGMT" 30 10 = (none, 3, 30) :=
  (C2_wait_polling (fun _ => ["other-env"]) "MGMT" 0 0).2 (by
    intro k e he
    simp only [List.mem_singleton] at he
    subst he
    decide)

/-- Claim C4: in both batch publishers a failed secret creation does not
stop the remaining creations (every pair of the batch is attempted), the call
returns `True` exactly when every individual creation succeeded, and for the
environment scope an unresolvable environment returns `False` with no
creation attempted. -/
theorem C4_batch_isolation (createOk : String → Bool) (rn en : String)
    (secrets : List (String × String)) :
    ((GHM_add_environment_secrets true false createOk en secrets).ok = false ∧
     (GHM_add_environment_secrets true false createOk en secrets).attempted = []) ∧
    ((GHM_add_environment_secrets true true createOk en secrets).attempted = secrets ∧
     ((GHM_add_environment_secrets true true createOk en secrets).ok = true ↔
        ∀ kv ∈ secrets, createOk kv.1 = true)) ∧
    ((GHM_add_repository_secrets true createOk rn secrets).attempted = secrets ∧
     ((GHM_add_repository_secrets true createOk rn secrets).ok = true ↔
        ∀ kv ∈ secrets, createOk kv.1 = true)) := by
  have henv := publishLoop_spec createOk
    (fun n => "Secret " ++ n ++ " added to environment " ++ en)
    (fun n => "Error adding environment secret " ++ n)
    secrets { ok := true, attempted := [], log := [] }
  have hrep := publishLoop_spec createOk
    (fun n => "Secret " ++ n ++ " added to " ++ rn)
    (fun n => "Error adding secret " ++ n)
    secrets { ok := true, attempted := [], log := [] }
  refine ⟨⟨rfl, rfl⟩, ⟨?_, ?_⟩, ⟨?_, ?_⟩⟩
  · simpa [GHM_add_environment_secrets] using henv.1
  · rw [show (GHM_add_environment_secrets true true createOk en secrets).ok =
        (true && secrets.all fun kv => createOk kv.1) from henv.2]
    simp [List.all_eq_true]
  · simpa [GHM_add_repository_secrets] using hrep.1
  · rw [show (GHM_add_repository_secrets true createOk rn secrets).ok =
        (true && secrets.all fun kv => createOk kv.1) from hrep.2]
    simp [List.all_eq_true]

/-- Claim C5, counterexample: the `GitHubManager.add_environment_secrets`
variant does not itself skip empty values — publishing the single mapping
`{"K": ""}` through it issues the creation call for `K` with the empty
value, so environment-scoped secret publishing does not universally skip
empty-valued keys. -/
theorem C5_manager_sends_empty_counterexample :
    (GHM_add_environment_secrets true true (fun _ => true) "env"
      [("K", "")]).attempted = [("K", "")] := by
  decide

/-- Claim C5 (amended): the standalone-script variant
(`add_environment_secrets` in `src/sdaf_github_actions.py`) skips every
empty-valued key with a printed skip message and never sends it to the API
(the issued calls are exactly the pairs with nonempty values, in order); the
`GitHubManager` variant sends every pair including empty-valued ones. -/
theorem C5_script_skips_empty (createOk : String → Bool) (en rn : String)
    (secrets : List (String × String)) :
    (script_add_environment_secrets createOk en rn secrets).1 =
      secrets.filter (fun kv => kv.2 != "") ∧
    ∀ n, (n, "") ∈ secrets →
      ("Skipping secret " ++ n ++ " because it has an empty value.") ∈
        (script_add_environment_secrets createOk en rn secrets).2 := by
  have h := script_env_secrets_loop_spec createOk en rn secrets ([], [])
  refine ⟨?_, ?_⟩
  · simpa [script_add_environment_secrets] using h.1
  · intro n hn
    simpa [script_add_environment_secrets] using h.2 n hn

/-- Witness for C5 at a concrete mapping with one empty value. -/
theorem C5_script_skips_empty_witness :
    ("Skipping secret " ++ "B" ++ " because it has an empty value.") ∈
      (script_add_environment_secrets (fun _ => true) "env" "owner/repo"
        [("A", "x"), ("B", "")]).2 :=
  (C5_script_skips_empty (fun _ => true) "env" "owner/repo"
    [("A", "x"), ("B", "")]).2 "B" (by decide)

/-- Claim C1, counterexample: when the `environment_secrets` step is the
failing one, `run_full_setup` does return immediately with overall `False`
and later flags `False`, but `environment_name` is the discovered name
`"MGMT-abc"`, not the empty string as the claim asserts for every failing
step. -/
theorem C1_environment_name_counterexample :
    (run_full_setup c1Outcomes).1 = false ∧
    (run_full_setup c1Outcomes).2.environment_secrets = false ∧
    (run_full_setup c1Outcomes).2.environment_name = "MGMT-abc" ∧
    (run_full_setup c1Outcomes).2.environment_name ≠ "" := by
  decide

/-- Claim C1 (amended): whichever step fails first, `run_full_setup` returns
immediately with overall `False` and the exact `results` dictionary in which
every flag for a step after the failing one still holds its initial `False`,
and `environment_name` still holds its initial empty string whenever the
failing step is at or before the environment wait (when the wait succeeded
and `environment_secrets` fails, `environment_name` holds the discovered
name). -/
theorem C1_run_full_setup_halts (o : StepOutcomes) :
    (o.github_app_setup = false →
       run_full_setup o = (false, {})) ∧
    (o.github_app_setup = true → o.validate_login = false → o.login = false →
       run_full_setup o = (false, { github_app_setup := true })) ∧
    (o.github_app_setup = true → (o.validate_login = true ∨ o.login = true) →
       (o.spn_workflow.1 = none ∨ o.spn_workflow.2 = false) →
       run_full_setup o =
         (false, { github_app_setup := true, azure_login := true })) ∧
    (∀ spn, o.github_app_setup = true → (o.validate_login = true ∨ o.login = true) →
       o.spn_workflow = (some spn, true) → o.create_environment = false →
       run_full_setup o =
         (false, { github_app_setup := true, azure_login := true,
                   spn_creation := true })) ∧
    (∀ spn, o.github_app_setup = true → (o.validate_login = true ∨ o.login = true) →
       o.spn_workflow = (some spn, true) → o.create_environment = true →
       o.wait_result.getD "" = "" →
       run_full_setup o =
         (false, { github_app_setup := true, azure_login := true,
                   spn_creation := true, environment_creation := true })) ∧
    (∀ spn n, o.github_app_setup = true → (o.validate_login = true ∨ o.login = true) →
       o.spn_workflow = (some spn, true) → o.create_environment = true →
       o.wait_result = some n → n ≠ "" → o.environment_secrets = false →
       run_full_setup o =
         (false, { github_app_setup := true, azure_login := true,
                   spn_creation := true, environment_creation := true,
                   environment_name := n })) := by
  obtain ⟨gha, vl, lg, ⟨spnOpt, role⟩, ce, wr, es, fi⟩ := o
  refine ⟨?_, ?_, ?_, ?_, ?_, ?_⟩
  · intro h1
    subst h1
    rfl
  · intro h1 h2 h3
    subst h1; subst h2; subst h3
    rfl
  · intro h1 h2 h3
    dsimp only at h1 h2 h3
    subst h1
    rcases h3 with h3 | h3
    · subst h3
      cases vl <;> cases lg <;> simp_all [run_full_setup]
    · subst h3
      cases spnOpt <;> cases vl <;> cases lg <;> simp_all [run_full_setup]
  · intro spn h1 h2 h3 h4
    subst h1; subst h4
    injection h3 with h3a h3b
    subst h3a; subst h3b
    cases vl <;> cases lg <;> simp_all [run_full_setup]
  · intro spn h1 h2 h3 h4 h5
    subst h1; subst h4
    injection h3 with h3a h3b
    subst h3a; subst h3b
    cases vl <;> cases lg <;> simp_all [run_full_setup]
  · intro spn n h1 h2 h3 h4 h5 h6 h7
    subst h1; subst h4; subst h5; subst h7
    injection h3 with h3a h3b
    subst h3a; subst h3b
    cases vl <;> cases lg <;> simp_all [run_full_setup]

/-- Witness for C1 at a concrete failing first step. -/
theorem C1_run_full_setup_halts_witness :
    run_full_setup
      { github_app_setup := false, validate_login := false, login := false,
        spn_workflow := (none, false), create_environment := false,
        wait_result := none, environment_secrets := false,
        federated_identity := false } = (false, {}) :=
  (C1_run_full_setup_halts _).1 rfl

/-- Claim C3: when the dispatch succeeded and the environment-wait poll
returns no name (timeout), the orchestrator in `src/ui/tui.py` marks the
`create_environment` step `error` and reports the timeout-specific message
`"Environment creation timed out"`, which differs from the message used when
the dispatch call itself fails (external-call failure); and `run_full_setup`
likewise treats the timeout as its own terminal condition, returning overall
`False` with a result signature (`environment_creation` recorded `True`,
`environment_name` empty) distinct from dispatch failure
(`environment_creation` recorded `False`). -/
theorem C3_timeout_reporting (o : StepOutcomes) (spn : SpnData)
    (h1 : o.github_app_setup = true)
    (h2 : o.validate_login = true ∨ o.login = true)
    (h3 : o.spn_workflow = (some spn, true)) :
    (o.create_environment = true → o.wait_result = none →
       getVal (tui_run_setup o).task_status "create_environment" = some "error" ∧
       (tui_run_setup o).error_message = some "Environment creation timed out" ∧
       "Environment creation timed out." ∈ (tui_run_setup o).status_log ∧
       (run_full_setup o).1 = false ∧
       (run_full_setup o).2.environment_creation = true ∧
       (run_full_setup o).2.environment_name = "") ∧
    (o.create_environment = false →
       getVal (tui_run_setup o).task_status "create_environment" = some "error" ∧
       (tui_run_setup o).error_message =
         some "Failed to trigger environment creation workflow" ∧
       (run_full_setup o).2.environment_creation = false) ∧
    ("Environment creation timed out" : String) ≠
      "Failed to trigger environment creation workflow" := by
  obtain ⟨gha, vl, lg, spnw, ce, wr, es, fi⟩ := o
  dsimp only at h1 h2 h3
  subst h1; subst h3
  refine ⟨?_, ?_, by decide⟩
  · intro h4 h5
    dsimp only at h4 h5
    subst h4; subst h5
    rcases h2 with h | h
    · subst h
      refine ⟨rfl, rfl, ?_, rfl, rfl, rfl⟩
      simp [tui_run_setup, logStatus, updateTask, initTuiState, setVal]
    · subst h
      cases vl
      · refine ⟨rfl, rfl, ?_, rfl, rfl, rfl⟩
        simp [tui_run_setup, logStatus, updateTask, initTuiState, setVal]
      · refine ⟨rfl, rfl, ?_, rfl, rfl, rfl⟩
        simp [tui_run_setup, logStatus, updateTask, initTuiState, setVal]
  · intro h4
    dsimp only at h4
    subst h4
    rcases h2 with h | h
    · subst h
      exact ⟨rfl, rfl, rfl⟩
    · subst h
      cases vl
      · exact ⟨rfl, rfl, rfl⟩
      · exact ⟨rfl, rfl, rfl⟩

/-- Witness for C3 at concrete step outcomes whose wait times out. -/
theorem C3_timeout_reporting_witness :
    getVal
      (tui_run_setup
        { github_app_setup := true, validate_login := true, login := false,
          spn_workflow := (some ⟨"a", "p", "o"⟩, true),
          create_environment := true, wait_result := none,
          environment_secrets := false,
          federated_identity := false }).task_status "create_environment" =
      some "error" ∧
    (tui_run_setup
        { github_app_setup := true, validate_login := true, login := false,
          spn_workflow := (some ⟨"a", "p", "o"⟩, true),
          create_environment := true, wait_result := none,
          environment_secrets := false,
          federated_identity := false }).error_message =
      some "Environment creation timed out" :=
  have h := (C3_timeout_reporting
    { github_app_setup := true, validate_login := true, login := false,
      spn_workflow := (some ⟨"a", "p", "o"⟩, true),
      create_environment := true, wait_result := none,
      environment_secrets := false, federated_identity := false }
    ⟨"a", "p", "o"⟩ rfl (Or.inl rfl) rfl).1 rfl rfl
  ⟨h.1, h.2.1⟩

/-- Claim C7: in the existing-service-principal path, a role-assignment
create call is issued exactly when the pre-check list query succeeded, its
output parsed, and the returned assignment list was empty; at most one create
call is issued per run; a principal that already holds the role gets zero
create calls; and running the step twice from a role-free state with all
commands succeeding issues exactly one create call in total. -/
theorem C7_role_assignment_idempotent (checkCmdOk parseOk createCmdOk : Bool)
    (spn : SpnData) (st : AzureRoleState) :
    ((existing_spn_role_step checkCmdOk parseOk createCmdOk spn st).create_calls = 1 ↔
       (checkCmdOk = true ∧ parseOk = true ∧ st.uaa_assignments = 0)) ∧
    (existing_spn_role_step checkCmdOk parseOk createCmdOk spn st).create_calls ≤ 1 ∧
    (0 < st.uaa_assignments →
       (existing_spn_role_step checkCmdOk parseOk createCmdOk spn st).create_calls = 0) ∧
    (st.uaa_assignments = 0 →
       (existing_spn_role_step true true true spn st).create_calls +
         (existing_spn_role_step true true true spn
           (existing_spn_role_step true true true spn st).state).create_calls = 1) := by
  rcases st with ⟨n⟩
  by_cases hn : n = 0
  · subst hn
    cases checkCmdOk <;> cases parseOk <;> cases createCmdOk <;>
      simp [existing_spn_role_step]
  · cases checkCmdOk <;> cases parseOk <;> cases createCmdOk <;>
      simp [existing_spn_role_step, hn] <;> omega

/-- Witness for C7: two consecutive runs from a role-free state issue exactly
one create call. -/
theorem C7_role_assignment_idempotent_witness :
    (existing_spn_role_step true true true ⟨"app", "pw", "oid"⟩ ⟨0⟩).create_calls +
      (existing_spn_role_step true true true ⟨"app", "pw", "oid"⟩
        (existing_spn_role_step true true true ⟨"app", "pw", "oid"⟩ ⟨0⟩).state).create_calls
      = 1 :=
  (C7_role_assignment_idempotent true true true ⟨"app", "pw", "oid"⟩ ⟨0⟩).2.2.2 rfl

/-- Claim C8: when the prechecks and the identity creation succeed, all five
roles are attempted (the create-call list is exactly `uai_roles`), the
returned record collects precisely the successful assignments, and the
function returns a record no matter which role assignments failed; the result
is `None` exactly when login, subscription, resource-group verification, the
identity creation call, or the parse of its output failed. -/
theorem C8_best_effort_roles (o : UaiOracle) (nm rg sub : String) :
    (∀ identity, o.login_ok = true → o.subscription_ok = true →
       o.resource_group_ok = true → o.identity_create_ok = true →
       o.identity_json = some identity →
       create_user_assigned_identity o nm rg sub =
         (some { name := nm, resourceGroup := rg, subscriptionId := sub,
                 identityId := identity.id, principalId := identity.principalId,
                 clientId := identity.clientId,
                 roleAssignments := (uai_roles.filter o.role_assign_ok).map
                   (fun r => (r, o.role_assign_id r)) },
          uai_roles)) ∧
    ((create_user_assigned_identity o nm rg sub).1 = none ↔
       (o.login_ok = false ∨ o.subscription_ok = false ∨
        o.resource_group_ok = false ∨ o.identity_create_ok = false ∨
        o.identity_json = none)) := by
  obtain ⟨lo, so, rgo, ico, ij, rok, rid⟩ := o
  constructor
  · intro identity h1 h2 h3 h4 h5
    dsimp only at h1 h2 h3 h4 h5
    subst h1; subst h2; subst h3; subst h4; subst h5
    simp [create_user_assigned_identity, uaiAssignLoop_spec]
  · cases lo <;> cases so <;> cases rgo <;> cases ico <;>
      rcases ij with _ | identity <;>
      simp [create_user_assigned_identity]

/-- Witness for C8: with the last two role assignments failing, the identity
record is still returned, carrying only the successful assignments, and all
five roles were attempted. -/
theorem C8_best_effort_roles_witness :
    create_user_assigned_identity
      { login_ok := true, subscription_ok := true, resource_group_ok := true,
        identity_create_ok := true, identity_json := some ⟨"id1", "pid1", "cid1"⟩,
        role_assign_ok := fun r =>
          r == "Contributor" || r == "Role Based Access Control Administrator" ||
            r == "Storage Blob Data Owner",
        role_assign_id := fun _ => "ra1" } "mi" "rg" "sub" =
      (some { name := "mi", resourceGroup := "rg", subscriptionId := "sub",
              identityId := "id1", principalId := "pid1", clientId := "cid1",
              roleAssignments :=
                [("Contributor", "ra1"),
                 ("Role Based Access Control Administrator", "ra1"),
                 ("Storage Blob Data Owner", "ra1")] },
       uai_roles) := by
  have h := (C8_best_effort_roles
    { login_ok := true, subscription_ok := true, resource_group_ok := true,
      identity_create_ok := true, identity_json := some ⟨"id1", "pid1", "cid1"⟩,
      role_assign_ok := fun r =>
        r == "Contributor" || r == "Role Based Access Control Administrator" ||
          r == "Storage Blob Data Owner",
      role_assign_id := fun _ => "ra1" } "mi" "rg" "sub").1
    ⟨"id1", "pid1", "cid1"⟩ rfl rfl rfl rfl rfl
  rw [h]
  rfl

/-- Claim C10: the three `ConfigManager` getters allocate fresh dictionary
objects equal to (for the combined getter: the update of) the stored data,
they write nothing to the persisted files, mutating a returned object leaves
the stored config and credentials objects unchanged, and in the combined data
a credentials entry takes precedence over a config entry with the same key,
with config entries visible for keys the credentials lack. -/
theorem C10_config_manager_getters (m : ConfigManagerRef) (s : PyState)
    (hc : m.config_addr < s.cells.length)
    (hr : m.credentials_addr < s.cells.length)
    (hnd : NodupKeys (heapGet s m.credentials_addr)) :
    (heapGet (CM_get_config m s).2 (CM_get_config m s).1 =
       heapGet s m.config_addr ∧
     (CM_get_config m s).2.file_writes = s.file_writes ∧
     ∀ d, heapGet (heapSet (CM_get_config m s).2 (CM_get_config m s).1 d)
             m.config_addr = heapGet s m.config_addr ∧
          heapGet (heapSet (CM_get_config m s).2 (CM_get_config m s).1 d)
             m.credentials_addr = heapGet s m.credentials_addr) ∧
    (heapGet (CM_get_credentials m s).2 (CM_get_credentials m s).1 =
       heapGet s m.credentials_addr ∧
     (CM_get_credentials m s).2.file_writes = s.file_writes ∧
     ∀ d, heapGet (heapSet (CM_get_credentials m s).2 (CM_get_credentials m s).1 d)
             m.config_addr = heapGet s m.config_addr ∧
          heapGet (heapSet (CM_get_credentials m s).2 (CM_get_credentials m s).1 d)
             m.credentials_addr = heapGet s m.credentials_addr) ∧
    (heapGet (CM_get_combined_data m s).2 (CM_get_combined_data m s).1 =
       dictUpdate (heapGet s m.config_addr) (heapGet s m.credentials_addr) ∧
     (CM_get_combined_data m s).2.file_writes = s.file_writes ∧
     (∀ d, heapGet (heapSet (CM_get_combined_data m s).2 (CM_get_combined_data m s).1 d)
              m.config_addr = heapGet s m.config_addr ∧
           heapGet (heapSet (CM_get_combined_data m s).2 (CM_get_combined_data m s).1 d)
              m.credentials_addr = heapGet s m.credentials_addr) ∧
     (∀ k v, getVal (heapGet s m.credentials_addr) k = some v →
        getVal (heapGet (CM_get_combined_data m s).2 (CM_get_combined_data m s).1) k =
          some v) ∧
     (∀ k, getVal (heapGet s m.credentials_addr) k = none →
        getVal (heapGet (CM_get_combined_data m s).2 (CM_get_combined_data m s).1) k =
          getVal (heapGet s m.config_addr) k)) := by
  refine ⟨⟨heapGet_alloc_new s _, rfl, fun d => ⟨?_, ?_⟩⟩,
          ⟨heapGet_alloc_new s _, rfl, fun d => ⟨?_, ?_⟩⟩,
          ⟨heapGet_alloc_new s _, rfl, fun d => ⟨?_, ?_⟩, ?_, ?_⟩⟩
  · exact heapGet_set_alloc s _ d _ hc
  · exact heapGet_set_alloc s _ d _ hr
  · exact heapGet_set_alloc s _ d _ hc
  · exact heapGet_set_alloc s _ d _ hr
  · exact heapGet_set_alloc s _ d _ hc
  · exact heapGet_set_alloc s _ d _ hr
  · intro k v hk
    rw [show heapGet (CM_get_combined_data m s).2 (CM_get_combined_data m s).1 =
          dictUpdate (heapGet s m.config_addr) (heapGet s m.credentials_addr) from
        heapGet_alloc_new s _]
    exact getVal_dictUpdate_of_some _ k v hnd hk _
  · intro k hk
    rw [show heapGet (CM_get_combined_data m s).2 (CM_get_combined_data m s).1 =
          dictUpdate (heapGet s m.config_addr) (heapGet s m.credentials_addr) from
        heapGet_alloc_new s _]
    exact getVal_dictUpdate_of_none _ k hk _

/-- Witness for C10: on the concrete two-cell state, the combined data gives
the credentials value for the shared key. -/
theorem C10_config_manager_getters_witness :
    getVal (heapGet (CM_get_combined_data ⟨0, 1⟩ c10State).2
      (CM_get_combined_data ⟨0, 1⟩ c10State).1) "k" = some "from-credentials" :=
  (C10_config_manager_getters ⟨0, 1⟩ c10State (by decide) (by decide)
    (by unfold NodupKeys; decide)).2.2.2.2.2.1 "k" "from-credentials" (by decide)

end SDAF
